import Mathlib

/-!
Verification of the result-aggregator Lambda
(services/mainframe-analyzer/src/result-aggregator-lambda/lambda_function.py).

The handler is embedded as a pure function from an environment (an object-storage
read oracle, the outcome of the single object-storage write, and the health of the
job-status store) and an event to a trace of external effects plus the returned
dictionary.  The job-status store (DynamoDB) is an association list from job id to
a record, itself an association list from attribute name to attribute value.
-/

namespace ResultAggregator

/-- An attribute value stored in the job-status table: a string or an integer. -/
inductive AttrVal where
  | str (s : String)
  | num (n : Nat)
deriving DecidableEq, Repr

/-- A job record: attribute name / value pairs. -/
abbrev JobRecord := List (String × AttrVal)

/-- The job-status table: job id / record pairs. -/
abbrev JobsTable := List (String × JobRecord)

/-- Python truthiness of an optional string: None and the empty string are falsy. -/
def truthy : Option String → Bool
  | none => false
  | some s => s != ""

/-- One element of the event's chunk_results list, as read by the handler
(each field accessed with dict.get, so possibly absent). -/
structure ChunkResult where
  status : Option String := none
  summary_key : Option String := none
  chunk_index : Option Nat := none
deriving DecidableEq, Repr

/-- The event dictionary, restricted to the keys the handler reads.
job_id keeps two levels because the code tests both membership and the value;
the outer layer is key presence, the inner is the value (None or a string). -/
structure Event where
  job_id : Option (Option String) := none
  bucket_name : Option String := none
  output_path : Option String := none
  chunk_results : List ChunkResult := []
deriving DecidableEq, Repr

/-- An external effect performed by the handler, in order. -/
inductive Effect where
  | statusUpdate (job_id : Option String) (status : String) (message : Option String)
  | s3Get (bucket : String) (key : String)
  | s3Put (bucket : String) (key : String) (body : String) (contentType : String)
deriving DecidableEq, Repr

/-- The environment: a read oracle for object storage (none = get_object raises),
the error raised by put_object (none = the write succeeds), whether the status
store accepts updates, and the clock used for updated_at. -/
structure Env where
  s3read : String → Option String
  putErr : Option String
  storeOk : Bool
  now : Nat

/-- The dictionary returned by lambda_handler.  Absent keys are none. -/
structure HandlerResult where
  job_id : Option String := none
  bucket_name : Option String := none
  output_path : Option String := none
  full_prompt_key : Option String := none
  status : String
  chunks_processed : Option Nat := none
  cross_chunk_analysis : Option Bool := none
  message : Option String := none
  error : Option String := none
deriving DecidableEq, Repr

/-- Python str() of the optional chunk_index, as interpolated into the header. -/
def renderIndex : Option Nat → String
  | none => "None"
  | some n => toString n

/-- The per-chunk block appended to all_summaries:
a CHUNK header, a blank line, then the summary content. -/
def chunkBlock (r : ChunkResult) (content : String) : String :=
  "## CHUNK " ++ renderIndex r.chunk_index ++ " ANALYSIS\n\n" ++ content

/-- The collection loop over chunk_results: skips results whose status is
"error", whose summary_key is absent or falsy, or whose storage read fails;
returns the get effects issued and the collected blocks, both in input order. -/
def collectSummaries (read : String → Option String) (bucket : String) :
    List ChunkResult → List Effect × List String
  | [] => ([], [])
  | r :: rs =>
    if r.status = some "error" then collectSummaries read bucket rs
    else
      match r.summary_key with
      | none => collectSummaries read bucket rs
      | some key =>
        if key = "" then collectSummaries read bucket rs
        else
          match read key with
          | none =>
            (Effect.s3Get bucket key :: (collectSummaries read bucket rs).1,
             (collectSummaries read bucket rs).2)
          | some content =>
            (Effect.s3Get bucket key :: (collectSummaries read bucket rs).1,
             chunkBlock r content :: (collectSummaries read bucket rs).2)

/-- The 80-character separator produced by "=" * 80. -/
def eqLine : String := String.mk (List.replicate 80 '=')

/-- combined_summaries: two newlines, the separator, then the blocks joined
with blank lines (string concatenation exactly as in the source). -/
def combined_summaries (all_summaries : List String) : String :=
  "\n\n" ++ eqLine ++ String.intercalate "\n\n" all_summaries

/-- The fixed template text standing before the combined summaries. -/
def promptBefore : String :=
  "Please analyze the following mainframe documentation summaries and provide comprehensive modernization recommendations with structured AWS implementations.\n\n**CROSS-CHUNK ANALYSIS REQUIRED:**\nPerform cross-chunk analysis to identify:\n- Common patterns and shared components across chunks\n- Integration points between different system components\n- Consolidated data models and shared services\n- Unified security and compliance requirements\n- End-to-end workflow orchestration needs\n\n**CHUNK SUMMARIES TO ANALYZE:**\n"

/-- The fixed template text standing after the combined summaries. -/
def promptAfter : String :=
  "\n\n**REQUIRED OUTPUT:**\nProvide a complete modernization solution organized by AWS service categories. Create specific implementation files for each service category with cross-chunk integration considerations.\n\nFocus on:\n- Production-ready, secure implementations\n- Cross-chunk component integration\n- Unified data architecture\n- End-to-end workflow orchestration\n- Consolidated security model\n- Cost optimization strategies\n- Migration-specific considerations for mainframe workloads\n\nProvide complete, deployable code for each component with proper cross-system integration.\n"

/-- analysis_prompt: the template with combined_summaries substituted. -/
def analysis_prompt (cs : String) : String :=
  promptBefore ++ cs ++ promptAfter

/-- The AGGREGATING status message for n chunk results. -/
def aggregatingMsg (n : Nat) : String :=
  "Collating summaries from " ++ toString n ++ " chunks and performing cross-chunk analysis"

/-- The AGGREGATED status message for n chunk results. -/
def aggregatedMsg (n : Nat) : String :=
  "Aggregated " ++ toString n ++ " chunk summaries and prepared cross-chunk analysis prompt"

/-- The key under which the aggregated prompt is written. -/
def promptKey (outp jid : String) : String :=
  outp ++ "/" ++ jid ++ "/aggregated_analysis_prompt.txt"

/-- lambda_handler as a pure function: the effect trace plus the returned
dictionary.  The only modelled escaping exception is a put_object failure;
get_object failures are caught inside the loop and update_job_status swallows
its own exceptions. -/
def lambda_handler (env : Env) (event : Event) : List Effect × HandlerResult :=
  let job_id := event.job_id.join
  let bucket_name := event.bucket_name
  let output_path := event.output_path
  let chunk_results := event.chunk_results
  if !(truthy job_id && truthy bucket_name && truthy output_path) then
    ([Effect.statusUpdate job_id "ERROR" (some "Missing required parameters")],
     { status := "error", error := some "Missing required parameters" })
  else
    let jid := job_id.getD ""
    let bkt := bucket_name.getD ""
    let outp := output_path.getD ""
    let collected := collectSummaries env.s3read bkt chunk_results
    let prompt := analysis_prompt (combined_summaries collected.2)
    let key := promptKey outp jid
    let pre := Effect.statusUpdate job_id "AGGREGATING" (some (aggregatingMsg chunk_results.length))
      :: collected.1
    match env.putErr with
    | none =>
      (pre ++ [Effect.s3Put bkt key prompt "text/plain",
               Effect.statusUpdate job_id "AGGREGATED" (some (aggregatedMsg chunk_results.length))],
       { job_id := job_id, bucket_name := bucket_name, output_path := output_path,
         full_prompt_key := some key, status := "success",
         chunks_processed := some chunk_results.length,
         cross_chunk_analysis := some true,
         message := some (aggregatedMsg chunk_results.length) })
    | some emsg =>
      let error_message := "Result aggregation failed: " ++ emsg
      (pre ++ (if event.job_id.isSome then
                 [Effect.statusUpdate job_id "FAILED" (some error_message)]
               else []),
       { job_id := job_id, bucket_name := bucket_name, output_path := output_path,
         status := "FAILED", error := some error_message })

/-- Set one attribute of a record, replacing an existing binding in place. -/
def setAttr : JobRecord → String → AttrVal → JobRecord
  | [], name, v => [(name, v)]
  | (a, w) :: rest, name, v =>
    if a = name then (name, v) :: rest else (a, w) :: setAttr rest name v

/-- Set one record of the table, replacing an existing binding in place. -/
def setRecord : JobsTable → String → JobRecord → JobsTable
  | [], jid, r => [(jid, r)]
  | (k, w) :: rest, jid, r =>
    if k = jid then (jid, r) :: rest else (k, w) :: setRecord rest jid r

/-- The record stored under a job id (empty when the id is absent,
matching update_item creating the item). -/
def getRecord (tbl : JobsTable) (jid : String) : JobRecord :=
  (List.lookup jid tbl).getD []

/-- The DynamoDB update_item call issued by update_job_status: SET status and
updated_at, and status_message exactly when the message is truthy. -/
def applyUpdateItem (tbl : JobsTable) (jid : String) (now : Nat)
    (status : String) (message : Option String) : JobsTable :=
  let rec0 := setAttr (setAttr (getRecord tbl jid) "status" (.str status)) "updated_at" (.num now)
  let rec1 := if truthy message then setAttr rec0 "status_message" (.str (message.getD "")) else rec0
  setRecord tbl jid rec1

/-- update_job_status: performs the update when the store is healthy and the
job id serializes; any exception is caught and only logged, leaving the table
unchanged. -/
def update_job_status (storeOk : Bool) (now : Nat) (tbl : JobsTable)
    (job_id : Option String) (status : String) (message : Option String) : JobsTable :=
  match storeOk, job_id with
  | true, some jid => applyUpdateItem tbl jid now status message
  | _, _ => tbl

/-- Apply one effect to the job-status table (object-storage effects leave it alone). -/
def applyEffect (storeOk : Bool) (now : Nat) (tbl : JobsTable) : Effect → JobsTable
  | .statusUpdate jid st msg => update_job_status storeOk now tbl jid st msg
  | _ => tbl

/-- Apply a trace of effects to the job-status table in order. -/
def applyEffects (storeOk : Bool) (now : Nat) : JobsTable → List Effect → JobsTable
  | tbl, [] => tbl
  | tbl, e :: es => applyEffects storeOk now (applyEffect storeOk now tbl e) es

/-- Recognize an object-storage write effect. -/
def isPut : Effect → Bool
  | .s3Put .. => true
  | _ => false

/-- Recognize an object-storage read effect. -/
def isGet : Effect → Bool
  | .s3Get .. => true
  | _ => false

/-- Recognize a status update to a given status string. -/
def isStatusTo (st : String) : Effect → Bool
  | .statusUpdate _ s _ => s == st
  | _ => false

/-- Scan a trace checking that every object-storage effect comes after a
status update to AGGREGATING (the flag records whether one was seen). -/
def s3AfterAggregating : List Effect → Bool → Bool
  | [], _ => true
  | Effect.statusUpdate _ s _ :: es, seen => s3AfterAggregating es (seen || (s == "AGGREGATING"))
  | _ :: es, seen => seen && s3AfterAggregating es seen

/-- Scan a trace checking that every status update to AGGREGATED comes after
an object-storage write (the flag records whether a write was seen). -/
def aggAfterWrite : List Effect → Bool → Bool
  | [], _ => true
  | Effect.s3Put .. :: es, _ => aggAfterWrite es true
  | Effect.statusUpdate _ s _ :: es, seen => (!(s == "AGGREGATED") || seen) && aggAfterWrite es seen
  | _ :: es, seen => aggAfterWrite es seen

/-- The collection condition as the claims state it: a chunk result is
collected when its status is not "error", its summary_key is present and
truthy, and the storage read of that key succeeds; the collected block is the
CHUNK header, a blank line, and the content as read. -/
def collectedBlockSpec (read : String → Option String) (r : ChunkResult) : Option String :=
  if r.status = some "error" then none
  else match r.summary_key with
    | none => none
    | some key => if key = "" then none else (read key).map (chunkBlock r)

/-! ## Helper lemmas -/

/-- Every effect issued by the collection loop is an object-storage read. -/
theorem collect_effects_are_reads (read : String → Option String) (bucket : String) :
    ∀ rs : List ChunkResult, ∀ e ∈ (collectSummaries read bucket rs).1, isGet e = true := by
  intro rs
  induction rs with
  | nil => intro e he; simp [collectSummaries] at he
  | cons r rs ih =>
    intro e he
    by_cases hs : r.status = some "error"
    · simp only [collectSummaries, hs, if_true, eq_self_iff_true, ite_true] at he
      exact ih e he
    · cases hk : r.summary_key with
      | none =>
        simp only [collectSummaries, hs, hk, ite_false, if_false] at he
        exact ih e he
      | some key =>
        by_cases hke : key = ""
        · simp [collectSummaries, hs, hk, hke] at he
          exact ih e he
        · cases hr : read key with
          | none =>
            simp [collectSummaries, hs, hk, hke, hr] at he
            rcases he with h1 | h1
            · subst h1; rfl
            · exact ih e h1
          | some c =>
            simp [collectSummaries, hs, hk, hke, hr] at he
            rcases he with h1 | h1
            · subst h1; rfl
            · exact ih e h1

/-- The collection loop returns exactly the blocks of the chunk results that
satisfy the collection condition, in input order. -/
theorem collect_blocks_eq_filterMap (read : String → Option String) (bucket : String) :
    ∀ rs : List ChunkResult,
      (collectSummaries read bucket rs).2 = rs.filterMap (collectedBlockSpec read) := by
  intro rs
  induction rs with
  | nil => rfl
  | cons r rs ih =>
    by_cases hs : r.status = some "error"
    · simp [collectSummaries, collectedBlockSpec, hs, ih]
    · cases hk : r.summary_key with
      | none => simp [collectSummaries, collectedBlockSpec, hs, hk, ih]
      | some key =>
        by_cases hke : key = ""
        · simp [collectSummaries, collectedBlockSpec, hs, hk, hke, ih]
        · cases hr : read key with
          | none => simp [collectSummaries, collectedBlockSpec, hs, hk, hke, hr, ih]
          | some c => simp [collectSummaries, collectedBlockSpec, hs, hk, hke, hr, ih]

/-- The effects of the loop on a tail are among the effects on the whole list. -/
theorem collect_effects_tail_subset (read : String → Option String) (bucket : String)
    (r0 : ChunkResult) (rs : List ChunkResult) :
    ∀ e ∈ (collectSummaries read bucket rs).1, e ∈ (collectSummaries read bucket (r0 :: rs)).1 := by
  intro e he
  by_cases hs0 : r0.status = some "error"
  · simpa [collectSummaries, hs0] using he
  · cases hk0 : r0.summary_key with
    | none => simpa [collectSummaries, hs0, hk0] using he
    | some key0 =>
      by_cases hke0 : key0 = ""
      · simpa [collectSummaries, hs0, hk0, hke0] using he
      · cases hr0 : read key0 with
        | none =>
          simp [collectSummaries, hs0, hk0, hke0, hr0]
          exact Or.inr he
        | some c0 =>
          simp [collectSummaries, hs0, hk0, hke0, hr0]
          exact Or.inr he

/-- A storage read is issued for every chunk result that passes the status and
summary_key checks (here specialised to one whose read succeeds). -/
theorem collect_read_mem (read : String → Option String) (bucket : String) :
    ∀ (rs : List ChunkResult) (r : ChunkResult) (key content : String), r ∈ rs →
      r.status ≠ some "error" → r.summary_key = some key → key ≠ "" →
      read key = some content →
      Effect.s3Get bucket key ∈ (collectSummaries read bucket rs).1 := by
  intro rs
  induction rs with
  | nil => intro r key content hmem; simp at hmem
  | cons r0 rs ih =>
    intro r key content hmem hs hk hke hc
    rcases List.mem_cons.mp hmem with h1 | h1
    · subst h1
      simp [collectSummaries, hs, hk, hke, hc]
    · exact collect_effects_tail_subset read bucket r0 rs _
        (ih r key content h1 hs hk hke hc)

/-- A list of read effects contains no write. -/
theorem filter_isPut_of_reads (l : List Effect) (h : ∀ e ∈ l, isGet e = true) :
    l.filter isPut = [] := by
  induction l with
  | nil => rfl
  | cons e l ih =>
    have he := h e (List.mem_cons_self _ _)
    cases e with
    | statusUpdate j s m => simp [isGet] at he
    | s3Put b k bo ct => simp [isGet] at he
    | s3Get b k =>
      rw [List.filter_cons]
      simp only [isPut, Bool.false_eq_true, if_false]
      exact ih fun x hx => h x (List.mem_cons_of_mem _ hx)

/-- Read effects pass the AGGREGATING-first scan once the flag is set. -/
theorem s3AfterAggregating_reads (rest : List Effect) :
    ∀ l : List Effect, (∀ e ∈ l, isGet e = true) →
      s3AfterAggregating (l ++ rest) true = s3AfterAggregating rest true := by
  intro l
  induction l with
  | nil => intro _; rfl
  | cons e l ih =>
    intro h
    have he := h e (List.mem_cons_self _ _)
    cases e with
    | statusUpdate j s m => simp [isGet] at he
    | s3Put bu k bo ct => simp [isGet] at he
    | s3Get bu k =>
      rw [List.cons_append]
      show (true && s3AfterAggregating (l ++ rest) true) = s3AfterAggregating rest true
      rw [Bool.true_and]
      exact ih fun x hx => h x (List.mem_cons_of_mem _ hx)

/-- Read effects neither produce an AGGREGATED update nor a write, so they are
transparent to the write-before-AGGREGATED scan. -/
theorem aggAfterWrite_reads (rest : List Effect) (fl : Bool) :
    ∀ l : List Effect, (∀ e ∈ l, isGet e = true) →
      aggAfterWrite (l ++ rest) fl = aggAfterWrite rest fl := by
  intro l
  induction l with
  | nil => intro _; rfl
  | cons e l ih =>
    intro h
    have he := h e (List.mem_cons_self _ _)
    cases e with
    | statusUpdate j s m => simp [isGet] at he
    | s3Put bu k bo ct => simp [isGet] at he
    | s3Get bu k =>
      rw [List.cons_append]
      show aggAfterWrite (l ++ rest) fl = aggAfterWrite rest fl
      exact ih fun x hx => h x (List.mem_cons_of_mem _ hx)

/-- The trace and result of the handler on an event failing parameter validation. -/
theorem lambda_handler_invalid (env : Env) (event : Event)
    (hv : (truthy event.job_id.join && truthy event.bucket_name && truthy event.output_path)
      = false) :
    lambda_handler env event =
      ([Effect.statusUpdate event.job_id.join "ERROR" (some "Missing required parameters")],
       { status := "error", error := some "Missing required parameters" }) := by
  simp only [lambda_handler, hv]
  simp

/-- The trace and result of the handler on a valid event whose write succeeds. -/
theorem lambda_handler_success (env : Env) (event : Event)
    (hv : (truthy event.job_id.join && truthy event.bucket_name && truthy event.output_path)
      = true)
    (hp : env.putErr = none) :
    lambda_handler env event =
      (Effect.statusUpdate event.job_id.join "AGGREGATING"
          (some (aggregatingMsg event.chunk_results.length))
        :: ((collectSummaries env.s3read (event.bucket_name.getD "") event.chunk_results).1
            ++ [Effect.s3Put (event.bucket_name.getD "")
                  (promptKey (event.output_path.getD "") (event.job_id.join.getD ""))
                  (analysis_prompt (combined_summaries
                    (collectSummaries env.s3read (event.bucket_name.getD "")
                      event.chunk_results).2))
                  "text/plain",
                Effect.statusUpdate event.job_id.join "AGGREGATED"
                  (some (aggregatedMsg event.chunk_results.length))]),
       { job_id := event.job_id.join, bucket_name := event.bucket_name,
         output_path := event.output_path,
         full_prompt_key := some (promptKey (event.output_path.getD "")
           (event.job_id.join.getD "")),
         status := "success", chunks_processed := some event.chunk_results.length,
         cross_chunk_analysis := some true,
         message := some (aggregatedMsg event.chunk_results.length), error := none }) := by
  simp only [lambda_handler, hv]
  simp [hp]

/-- The trace and result of the handler on a valid event whose write raises. -/
theorem lambda_handler_failed (env : Env) (event : Event) (emsg : String)
    (hv : (truthy event.job_id.join && truthy event.bucket_name && truthy event.output_path)
      = true)
    (hp : env.putErr = some emsg) :
    lambda_handler env event =
      (Effect.statusUpdate event.job_id.join "AGGREGATING"
          (some (aggregatingMsg event.chunk_results.length))
        :: ((collectSummaries env.s3read (event.bucket_name.getD "") event.chunk_results).1
            ++ (if event.job_id.isSome then
                  [Effect.statusUpdate event.job_id.join "FAILED"
                    (some ("Result aggregation failed: " ++ emsg))]
                else [])),
       { job_id := event.job_id.join, bucket_name := event.bucket_name,
         output_path := event.output_path, status := "FAILED",
         error := some ("Result aggregation failed: " ++ emsg) }) := by
  simp only [lambda_handler, hv]
  simp [hp]

/-- Looking up another key is unchanged by setRecord. -/
theorem lookup_setRecord_ne (jid k : String) (r : JobRecord) (hk : k ≠ jid) :
    ∀ tbl : JobsTable, List.lookup k (setRecord tbl jid r) = List.lookup k tbl := by
  have hkb : (k == jid) = false := beq_eq_false_iff_ne.mpr hk
  intro tbl
  induction tbl with
  | nil => simp [setRecord, List.lookup, hkb]
  | cons hd tl ih =>
    obtain ⟨k0, r0⟩ := hd
    by_cases h0 : k0 = jid
    · subst h0
      simp [setRecord, List.lookup, hkb, ih]
    · simp [setRecord, List.lookup, h0, ih]

/-- Looking up the written key after setRecord yields the record. -/
theorem lookup_setRecord_eq (jid : String) (r : JobRecord) :
    ∀ tbl : JobsTable, List.lookup jid (setRecord tbl jid r) = some r := by
  intro tbl
  induction tbl with
  | nil => simp [setRecord, List.lookup]
  | cons hd tl ih =>
    obtain ⟨k0, r0⟩ := hd
    by_cases h0 : k0 = jid
    · subst h0
      simp [setRecord, List.lookup]
    · have h0b : (jid == k0) = false := beq_eq_false_iff_ne.mpr (Ne.symm h0)
      simp [setRecord, List.lookup, h0, h0b, ih]

/-- Looking up another attribute is unchanged by setAttr. -/
theorem lookup_setAttr_ne (name a : String) (v : AttrVal) (ha : a ≠ name) :
    ∀ rec : JobRecord, List.lookup a (setAttr rec name v) = List.lookup a rec := by
  have hab : (a == name) = false := beq_eq_false_iff_ne.mpr ha
  intro rec
  induction rec with
  | nil => simp [setAttr, List.lookup, hab]
  | cons hd tl ih =>
    obtain ⟨a0, v0⟩ := hd
    by_cases h0 : a0 = name
    · subst h0
      simp [setAttr, List.lookup, hab, ih]
    · simp [setAttr, List.lookup, h0, ih]

@[simp] theorem isPut_statusUpdate (j : Option String) (s : String) (m : Option String) :
    isPut (Effect.statusUpdate j s m) = false := rfl

@[simp] theorem isPut_s3Get (b k : String) : isPut (Effect.s3Get b k) = false := rfl

@[simp] theorem isPut_s3Put (b k bo ct : String) : isPut (Effect.s3Put b k bo ct) = true := rfl

@[simp] theorem isGet_statusUpdate (j : Option String) (s : String) (m : Option String) :
    isGet (Effect.statusUpdate j s m) = false := rfl

@[simp] theorem isGet_s3Get (b k : String) : isGet (Effect.s3Get b k) = true := rfl

@[simp] theorem isGet_s3Put (b k bo ct : String) : isGet (Effect.s3Put b k bo ct) = false := rfl

@[simp] theorem isStatusTo_statusUpdate (st : String) (j : Option String) (s : String)
    (m : Option String) : isStatusTo st (Effect.statusUpdate j s m) = (s == st) := rfl

@[simp] theorem isStatusTo_s3Get (st b k : String) : isStatusTo st (Effect.s3Get b k) = false := rfl

@[simp] theorem isStatusTo_s3Put (st b k bo ct : String) :
    isStatusTo st (Effect.s3Put b k bo ct) = false := rfl

@[simp] theorem s3AfterAggregating_nil (fl : Bool) : s3AfterAggregating [] fl = true := rfl

@[simp] theorem s3AfterAggregating_cons_status (j : Option String) (s : String)
    (m : Option String) (es : List Effect) (fl : Bool) :
    s3AfterAggregating (Effect.statusUpdate j s m :: es) fl
      = s3AfterAggregating es (fl || (s == "AGGREGATING")) := rfl

@[simp] theorem s3AfterAggregating_cons_get (b k : String) (es : List Effect) (fl : Bool) :
    s3AfterAggregating (Effect.s3Get b k :: es) fl = (fl && s3AfterAggregating es fl) := rfl

@[simp] theorem s3AfterAggregating_cons_put (b k bo ct : String) (es : List Effect) (fl : Bool) :
    s3AfterAggregating (Effect.s3Put b k bo ct :: es) fl = (fl && s3AfterAggregating es fl) := rfl

@[simp] theorem aggAfterWrite_nil (fl : Bool) : aggAfterWrite [] fl = true := rfl

@[simp] theorem aggAfterWrite_cons_status (j : Option String) (s : String)
    (m : Option String) (es : List Effect) (fl : Bool) :
    aggAfterWrite (Effect.statusUpdate j s m :: es) fl
      = ((!(s == "AGGREGATED") || fl) && aggAfterWrite es fl) := rfl

@[simp] theorem aggAfterWrite_cons_get (b k : String) (es : List Effect) (fl : Bool) :
    aggAfterWrite (Effect.s3Get b k :: es) fl = aggAfterWrite es fl := rfl

@[simp] theorem aggAfterWrite_cons_put (b k bo ct : String) (es : List Effect) (fl : Bool) :
    aggAfterWrite (Effect.s3Put b k bo ct :: es) fl = aggAfterWrite es true := rfl

/-! ## Claims -/

/-- Claim C7: update_job_status modifies only the attributes status,
updated_at, and — when a truthy message is supplied — status_message of the
record keyed by job_id; every other attribute of that record and every other
record of the table keep their values. -/
theorem C7_update_job_status_frame (tbl : JobsTable) (now : Nat) (jid st : String)
    (msg : Option String) :
    (∀ k : String, k ≠ jid →
      List.lookup k (update_job_status true now tbl (some jid) st msg) = List.lookup k tbl)
    ∧ (∀ a : String, a ≠ "status" → a ≠ "updated_at" → a ≠ "status_message" →
      List.lookup a (getRecord (update_job_status true now tbl (some jid) st msg) jid)
        = List.lookup a (getRecord tbl jid))
    ∧ (truthy msg = false → ∀ a : String, a ≠ "status" → a ≠ "updated_at" →
      List.lookup a (getRecord (update_job_status true now tbl (some jid) st msg) jid)
        = List.lookup a (getRecord tbl jid)) := by
  refine ⟨?_, ?_, ?_⟩
  · intro k hk
    show List.lookup k (applyUpdateItem tbl jid now st msg) = List.lookup k tbl
    unfold applyUpdateItem
    exact lookup_setRecord_ne jid k _ hk tbl
  · intro a h1 h2 h3
    show List.lookup a (getRecord (applyUpdateItem tbl jid now st msg) jid)
      = List.lookup a (getRecord tbl jid)
    unfold applyUpdateItem getRecord
    rw [lookup_setRecord_eq]
    simp only [Option.getD_some]
    by_cases hm : truthy msg = true
    · simp only [hm, ite_true, if_true]
      rw [lookup_setAttr_ne _ _ _ h3, lookup_setAttr_ne _ _ _ h2, lookup_setAttr_ne _ _ _ h1]
    · simp only [hm, ite_false, if_false, Bool.false_eq_true]
      rw [lookup_setAttr_ne _ _ _ h2, lookup_setAttr_ne _ _ _ h1]
  · intro hm a h1 h2
    show List.lookup a (getRecord (applyUpdateItem tbl jid now st msg) jid)
      = List.lookup a (getRecord tbl jid)
    unfold applyUpdateItem getRecord
    rw [lookup_setRecord_eq]
    simp only [Option.getD_some, hm, ite_false, if_false, Bool.false_eq_true]
    rw [lookup_setAttr_ne _ _ _ h2, lookup_setAttr_ne _ _ _ h1]

/-- Claim C10: update_job_status never raises — when the status store fails the
table is left unchanged and nothing propagates — and the handler trace and
returned dictionary do not depend on the store health or the clock. -/
theorem C10_update_swallows_errors :
    (∀ (now : Nat) (tbl : JobsTable) (job_id : Option String) (st : String)
       (msg : Option String), update_job_status false now tbl job_id st msg = tbl)
    ∧ (∀ (now : Nat) (tbl : JobsTable) (l : List Effect), applyEffects false now tbl l = tbl)
    ∧ (∀ (read : String → Option String) (p : Option String) (b b' : Bool) (n n' : Nat)
        (event : Event),
      lambda_handler ⟨read, p, b, n⟩ event = lambda_handler ⟨read, p, b', n'⟩ event) := by
  refine ⟨?_, ?_, ?_⟩
  · intro now tbl job_id st msg
    cases job_id <;> rfl
  · intro now tbl l
    induction l with
    | nil => rfl
    | cons e l ih =>
      cases e with
      | statusUpdate j s m =>
        show applyEffects false now (update_job_status false now tbl j s m) l = tbl
        cases j <;> exact ih
      | s3Get b k => exact ih
      | s3Put b k bo ct => exact ih
  · intro read p b b' n n' event
    rfl

/-- Claim C8: when job_id, bucket_name, or output_path is absent or falsy the
handler returns the error dictionary without writing any object, after
attempting exactly one status update, to ERROR, issued even when job_id itself
is the missing parameter. -/
theorem C8_missing_parameters (env : Env) (event : Event)
    (hv : (truthy event.job_id.join && truthy event.bucket_name && truthy event.output_path)
      = false) :
    lambda_handler env event =
      ([Effect.statusUpdate event.job_id.join "ERROR" (some "Missing required parameters")],
       { status := "error", error := some "Missing required parameters" })
    ∧ (lambda_handler env event).1.filter isPut = []
    ∧ ((lambda_handler env event).1.filter (isStatusTo "ERROR")).length = 1 := by
  have h := lambda_handler_invalid env event hv
  refine ⟨h, ?_, ?_⟩
  · rw [h]
    rfl
  · rw [h]
    rfl

/-- The single write of a successful invocation, with the event fields named. -/
theorem success_put_filter (env : Env) (event : Event) (jid bkt outp : String)
    (hj : event.job_id = some (some jid)) (hb : event.bucket_name = some bkt)
    (ho : event.output_path = some outp)
    (hj1 : jid ≠ "") (hb1 : bkt ≠ "") (ho1 : outp ≠ "") (hp : env.putErr = none) :
    (lambda_handler env event).1.filter isPut =
      [Effect.s3Put bkt (promptKey outp jid)
        (analysis_prompt (combined_summaries
          (collectSummaries env.s3read bkt event.chunk_results).2)) "text/plain"] := by
  have hjj : (Option.bind event.job_id fun a => a) = some jid := by rw [hj]; rfl
  have hv : (truthy event.job_id.join && truthy event.bucket_name && truthy event.output_path)
      = true := by
    simp [truthy, hjj, hb, ho, hj1, hb1, ho1]
  rw [lambda_handler_success env event hv hp]
  have hg := filter_isPut_of_reads _
    (collect_effects_are_reads env.s3read bkt event.chunk_results)
  simp [List.filter_append, hg, hjj, hb, ho]

/-- Claim C1: with non-empty job_id, bucket_name, and output_path in the event
and no escaping exception, the handler persists exactly one blob: one write, to
bucket_name at output_path/job_id/aggregated_analysis_prompt.txt with content
type text/plain, and it returns status success with full_prompt_key equal to
that key. -/
theorem C1_exactly_one_blob (env : Env) (event : Event) (jid bkt outp : String)
    (hj : event.job_id = some (some jid)) (hb : event.bucket_name = some bkt)
    (ho : event.output_path = some outp)
    (hj1 : jid ≠ "") (hb1 : bkt ≠ "") (ho1 : outp ≠ "") (hp : env.putErr = none) :
    (lambda_handler env event).1.filter isPut =
      [Effect.s3Put bkt (outp ++ "/" ++ jid ++ "/aggregated_analysis_prompt.txt")
        (analysis_prompt (combined_summaries
          (collectSummaries env.s3read bkt event.chunk_results).2)) "text/plain"]
    ∧ (lambda_handler env event).2.status = "success"
    ∧ (lambda_handler env event).2.full_prompt_key =
        some (outp ++ "/" ++ jid ++ "/aggregated_analysis_prompt.txt") := by
  have hjj : (Option.bind event.job_id fun a => a) = some jid := by rw [hj]; rfl
  have hv : (truthy event.job_id.join && truthy event.bucket_name && truthy event.output_path)
      = true := by
    simp [truthy, hjj, hb, ho, hj1, hb1, ho1]
  refine ⟨success_put_filter env event jid bkt outp hj hb ho hj1 hb1 ho1 hp, ?_, ?_⟩
  · rw [lambda_handler_success env event hv hp]
  · rw [lambda_handler_success env event hv hp]
    simp [hjj, ho, promptKey]

/-- Claim C4: the persisted body is a pure template fill: the fixed text before,
the combined-summaries string, the fixed text after; the combined-summaries
string is two newlines, a run of 80 equals signs, and the collected blocks
joined with blank lines; nothing else in the body depends on the summaries. -/
theorem C4_pure_template_fill (env : Env) (event : Event) (jid bkt outp : String)
    (hj : event.job_id = some (some jid)) (hb : event.bucket_name = some bkt)
    (ho : event.output_path = some outp)
    (hj1 : jid ≠ "") (hb1 : bkt ≠ "") (ho1 : outp ≠ "") (hp : env.putErr = none) :
    (lambda_handler env event).1.filter isPut =
      [Effect.s3Put bkt (promptKey outp jid)
        (promptBefore
          ++ ("\n\n" ++ eqLine ++ String.intercalate "\n\n"
                (collectSummaries env.s3read bkt event.chunk_results).2)
          ++ promptAfter) "text/plain"]
    ∧ (∀ blocks : List String,
        analysis_prompt (combined_summaries blocks) =
          promptBefore ++ ("\n\n" ++ eqLine ++ String.intercalate "\n\n" blocks) ++ promptAfter)
    ∧ eqLine.length = 80
    ∧ eqLine.data.all (fun c => c == '=') = true := by
  refine ⟨success_put_filter env event jid bkt outp hj hb ho hj1 hb1 ho1 hp, ?_, ?_, ?_⟩
  · intro blocks
    rfl
  · decide
  · decide

/-- Claim C2: every collected chunk result contributes the block consisting of
the header for its chunk_index, a blank line, and its content exactly as read,
and the persisted prompt carries these blocks joined with blank lines in
chunk_results order. -/
theorem C2_blocks_in_input_order (env : Env) (event : Event) (jid bkt outp : String)
    (hj : event.job_id = some (some jid)) (hb : event.bucket_name = some bkt)
    (ho : event.output_path = some outp)
    (hj1 : jid ≠ "") (hb1 : bkt ≠ "") (ho1 : outp ≠ "") (hp : env.putErr = none) :
    (lambda_handler env event).1.filter isPut =
      [Effect.s3Put bkt (promptKey outp jid)
        (promptBefore
          ++ ("\n\n" ++ eqLine ++ String.intercalate "\n\n"
                (event.chunk_results.filterMap (collectedBlockSpec env.s3read)))
          ++ promptAfter) "text/plain"]
    ∧ (∀ (r : ChunkResult) (key content : String),
        r.status ≠ some "error" → r.summary_key = some key → key ≠ "" →
        env.s3read key = some content →
        collectedBlockSpec env.s3read r =
          some ("## CHUNK " ++ renderIndex r.chunk_index ++ " ANALYSIS\n\n" ++ content)) := by
  constructor
  · have h := success_put_filter env event jid bkt outp hj hb ho hj1 hb1 ho1 hp
    rw [h, collect_blocks_eq_filterMap]
    rfl
  · intro r key content hs hk hke hc
    simp [collectedBlockSpec, hs, hk, hke, hc, chunkBlock]

/-- An environment for the C3 counterexample: object storage holds a summary
under the key sum/err; the write succeeds. -/
def envC3 : Env where
  s3read := fun k => if k = "sum/err" then some "SECRET SUMMARY" else none
  putErr := none
  storeOk := true
  now := 0

/-- An event for the C3 counterexample: a single chunk result whose status is
"error" but which names the stored summary sum/err. -/
def eventC3 : Event where
  job_id := some (some "j")
  bucket_name := some "b"
  output_path := some "o"
  chunk_results :=
    [{ status := some "error", summary_key := some "sum/err", chunk_index := some 0 }]

/-- Counterexample to claim C3: the single element of chunk_results has its
summary stored in object storage, yet the invocation succeeds without issuing
any storage read and with no collected block, so that element is neither
gathered nor included in the prompt. -/
theorem C3_counterexample :
    envC3.s3read "sum/err" = some "SECRET SUMMARY"
    ∧ (lambda_handler envC3 eventC3).2.status = "success"
    ∧ (lambda_handler envC3 eventC3).1.filter isGet = []
    ∧ (collectSummaries envC3.s3read "b" eventC3.chunk_results).2 = [] := by
  refine ⟨rfl, rfl, rfl, rfl⟩

/-- Claim C3 (amended): every element of chunk_results that is not skipped —
its status is not "error", its summary_key is present and truthy, and the
storage read of that key succeeds — is gathered from object storage and its
block is among those concatenated into the persisted prompt. -/
theorem C3_every_collected_chunk_included (env : Env) (event : Event)
    (jid bkt outp : String)
    (hj : event.job_id = some (some jid)) (hb : event.bucket_name = some bkt)
    (ho : event.output_path = some outp)
    (hj1 : jid ≠ "") (hb1 : bkt ≠ "") (ho1 : outp ≠ "") (hp : env.putErr = none)
    (r : ChunkResult) (key content : String)
    (hmem : r ∈ event.chunk_results) (hs : r.status ≠ some "error")
    (hk : r.summary_key = some key) (hke : key ≠ "") (hc : env.s3read key = some content) :
    Effect.s3Get bkt key ∈ (lambda_handler env event).1
    ∧ chunkBlock r content ∈ (collectSummaries env.s3read bkt event.chunk_results).2
    ∧ (lambda_handler env event).1.filter isPut =
        [Effect.s3Put bkt (promptKey outp jid)
          (analysis_prompt (combined_summaries
            (collectSummaries env.s3read bkt event.chunk_results).2)) "text/plain"] := by
  have hjj : (Option.bind event.job_id fun a => a) = some jid := by rw [hj]; rfl
  have hv : (truthy event.job_id.join && truthy event.bucket_name && truthy event.output_path)
      = true := by
    simp [truthy, hjj, hb, ho, hj1, hb1, ho1]
  have hbk : event.bucket_name.getD "" = bkt := by rw [hb]; rfl
  refine ⟨?_, ?_, success_put_filter env event jid bkt outp hj hb ho hj1 hb1 ho1 hp⟩
  · rw [lambda_handler_success env event hv hp, hbk]
    exact List.mem_cons_of_mem _ (List.mem_append_left _
      (collect_read_mem env.s3read bkt event.chunk_results r key content hmem hs hk hke hc))
  · rw [collect_blocks_eq_filterMap]
    exact List.mem_filterMap.mpr ⟨r, hmem, by simp [collectedBlockSpec, hs, hk, hke, hc]⟩

/-- Claim C5: in every invocation, every object-storage access is preceded by a
status update to AGGREGATING, every status update to AGGREGATED is preceded by
the blob write, and on success the write and the AGGREGATED update do occur. -/
theorem C5_status_update_ordering (env : Env) (event : Event) :
    s3AfterAggregating (lambda_handler env event).1 false = true
    ∧ aggAfterWrite (lambda_handler env event).1 false = true
    ∧ ((lambda_handler env event).2.status = "success" →
        (lambda_handler env event).1.any isPut = true
        ∧ (lambda_handler env event).1.any (isStatusTo "AGGREGATED") = true) := by
  have e1 : ("AGGREGATING" == "AGGREGATING") = true := by decide
  have e2 : ("AGGREGATING" == "AGGREGATED") = false := by decide
  have e3 : ("AGGREGATED" == "AGGREGATED") = true := by decide
  have e4 : ("FAILED" == "AGGREGATED") = false := by decide
  have e5 : ("ERROR" == "AGGREGATED") = false := by decide
  by_cases hv : (truthy event.job_id.join && truthy event.bucket_name && truthy event.output_path)
      = true
  · cases hp : env.putErr with
    | none =>
      rw [lambda_handler_success env event hv hp]
      refine ⟨?_, ?_, fun _ => ⟨?_, ?_⟩⟩
      · rw [s3AfterAggregating_cons_status]
        simp only [e1, Bool.false_or]
        rw [s3AfterAggregating_reads _ _ (collect_effects_are_reads _ _ _)]
        simp
      · rw [aggAfterWrite_cons_status]
        simp only [e2, Bool.not_false, Bool.true_or, Bool.true_and]
        rw [aggAfterWrite_reads _ _ _ (collect_effects_are_reads _ _ _)]
        simp [e3]
      · simp
      · simp [e3]
    | some emsg =>
      rw [lambda_handler_failed env event emsg hv hp]
      refine ⟨?_, ?_, ?_⟩
      · rw [s3AfterAggregating_cons_status]
        simp only [e1, Bool.false_or]
        rw [s3AfterAggregating_reads _ _ (collect_effects_are_reads _ _ _)]
        cases event.job_id.isSome <;> simp
      · rw [aggAfterWrite_cons_status]
        simp only [e2, Bool.not_false, Bool.true_or, Bool.true_and]
        rw [aggAfterWrite_reads _ _ _ (collect_effects_are_reads _ _ _)]
        cases event.job_id.isSome <;> simp [e4]
      · intro hcontra
        simp at hcontra
  · simp only [Bool.not_eq_true] at hv
    rw [lambda_handler_invalid env event hv]
    refine ⟨by simp, by simp [e5], ?_⟩
    intro hcontra
    simp at hcontra

/-- Claim C6: when an exception escapes the aggregation body after validation
(the blob write fails with message emsg), the handler catches it and returns
status FAILED with the error "Result aggregation failed: " ++ emsg, and issues
a status update to FAILED carrying that message; the model is total, so
nothing is re-raised. -/
theorem C6_exception_caught (env : Env) (event : Event) (jid bkt outp emsg : String)
    (hj : event.job_id = some (some jid)) (hb : event.bucket_name = some bkt)
    (ho : event.output_path = some outp)
    (hj1 : jid ≠ "") (hb1 : bkt ≠ "") (ho1 : outp ≠ "")
    (hp : env.putErr = some emsg) :
    (lambda_handler env event).2.status = "FAILED"
    ∧ (lambda_handler env event).2.error = some ("Result aggregation failed: " ++ emsg)
    ∧ (event.job_id.isSome = true
        → Effect.statusUpdate (some jid) "FAILED"
            (some ("Result aggregation failed: " ++ emsg)) ∈ (lambda_handler env event).1) := by
  have hjj : (Option.bind event.job_id fun a => a) = some jid := by rw [hj]; rfl
  have hv : (truthy event.job_id.join && truthy event.bucket_name && truthy event.output_path)
      = true := by
    simp [truthy, hjj, hb, ho, hj1, hb1, ho1]
  rw [lambda_handler_failed env event emsg hv hp]
  refine ⟨rfl, rfl, ?_⟩
  intro hjs
  simp [hjs, hjj, List.mem_append]

/-- Claim C9: on success, chunks_processed and the count inside the AGGREGATED
status message both equal the length of chunk_results — skipped chunks
included — and an empty chunk_results still succeeds, persisting a prompt
built from zero blocks. -/
theorem C9_counts_all_chunks (env : Env) (event : Event) (jid bkt outp : String)
    (hj : event.job_id = some (some jid)) (hb : event.bucket_name = some bkt)
    (ho : event.output_path = some outp)
    (hj1 : jid ≠ "") (hb1 : bkt ≠ "") (ho1 : outp ≠ "") (hp : env.putErr = none) :
    (lambda_handler env event).2.chunks_processed = some event.chunk_results.length
    ∧ (lambda_handler env event).2.message = some (aggregatedMsg event.chunk_results.length)
    ∧ aggregatedMsg event.chunk_results.length
        = "Aggregated " ++ toString event.chunk_results.length
          ++ " chunk summaries and prepared cross-chunk analysis prompt"
    ∧ Effect.statusUpdate (some jid) "AGGREGATED"
        (some (aggregatedMsg event.chunk_results.length)) ∈ (lambda_handler env event).1
    ∧ (event.chunk_results = [] →
        (lambda_handler env event).2.status = "success"
        ∧ (lambda_handler env event).1.filter isPut =
            [Effect.s3Put bkt (promptKey outp jid)
              (analysis_prompt (combined_summaries [])) "text/plain"]) := by
  have hjj : (Option.bind event.job_id fun a => a) = some jid := by rw [hj]; rfl
  have hv : (truthy event.job_id.join && truthy event.bucket_name && truthy event.output_path)
      = true := by
    simp [truthy, hjj, hb, ho, hj1, hb1, ho1]
  refine ⟨?_, ?_, rfl, ?_, ?_⟩
  · rw [lambda_handler_success env event hv hp]
  · rw [lambda_handler_success env event hv hp]
  · rw [lambda_handler_success env event hv hp]
    simp [hjj, List.mem_append]
  · intro hnil
    refine ⟨?_, ?_⟩
    · rw [lambda_handler_success env event hv hp]
    · have h := success_put_filter env event jid bkt outp hj hb ho hj1 hb1 ho1 hp
      rw [h, hnil]
      rfl

/-! ## Concrete fixtures for the witnesses -/

/-- A concrete environment: one stored summary, healthy write. -/
def envW : Env where
  s3read := fun k => if k = "sums/0" then some "alpha" else none
  putErr := none
  storeOk := true
  now := 11

/-- The same environment with a failing write. -/
def envF : Env where
  s3read := fun k => if k = "sums/0" then some "alpha" else none
  putErr := some "boom"
  storeOk := true
  now := 11

/-- A concrete event: one collected chunk and one skipped (status error). -/
def eventW : Event where
  job_id := some (some "job-1")
  bucket_name := some "bkt"
  output_path := some "out"
  chunk_results :=
    [{ status := some "ok", summary_key := some "sums/0", chunk_index := some 0 },
     { status := some "error", summary_key := some "sums/1", chunk_index := some 1 }]

/-- A concrete event with no job_id key. -/
def eventM : Event where
  bucket_name := some "bkt"
  output_path := some "out"

/-- A concrete event with an empty chunk_results list. -/
def eventE : Event where
  job_id := some (some "job-1")
  bucket_name := some "bkt"
  output_path := some "out"

/-- A concrete job-status table with two records. -/
def tblW : JobsTable :=
  [("other", [("status", AttrVal.str "NEW"), ("owner", AttrVal.str "alice")]),
   ("job-1", [("status", AttrVal.str "OLD"), ("note", AttrVal.str "keep")])]

/-- Witness for C1 at the concrete environment and event. -/
theorem C1_witness :
    (lambda_handler envW eventW).1.filter isPut =
      [Effect.s3Put "bkt" ("out" ++ "/" ++ "job-1" ++ "/aggregated_analysis_prompt.txt")
        (analysis_prompt (combined_summaries
          (collectSummaries envW.s3read "bkt" eventW.chunk_results).2)) "text/plain"]
    ∧ (lambda_handler envW eventW).2.status = "success"
    ∧ (lambda_handler envW eventW).2.full_prompt_key =
        some ("out" ++ "/" ++ "job-1" ++ "/aggregated_analysis_prompt.txt") :=
  C1_exactly_one_blob envW eventW "job-1" "bkt" "out" rfl rfl rfl
    (by decide) (by decide) (by decide) rfl

/-- Witness for C2 at the concrete environment and event. -/
theorem C2_witness :
    (lambda_handler envW eventW).1.filter isPut =
      [Effect.s3Put "bkt" (promptKey "out" "job-1")
        (promptBefore
          ++ ("\n\n" ++ eqLine ++ String.intercalate "\n\n"
                (eventW.chunk_results.filterMap (collectedBlockSpec envW.s3read)))
          ++ promptAfter) "text/plain"] :=
  (C2_blocks_in_input_order envW eventW "job-1" "bkt" "out" rfl rfl rfl
    (by decide) (by decide) (by decide) rfl).1

/-- Witness for the amended C3 at the concrete environment and event. -/
theorem C3_witness :
    Effect.s3Get "bkt" "sums/0" ∈ (lambda_handler envW eventW).1
    ∧ chunkBlock { status := some "ok", summary_key := some "sums/0", chunk_index := some 0 }
        "alpha" ∈ (collectSummaries envW.s3read "bkt" eventW.chunk_results).2 :=
  have h := C3_every_collected_chunk_included envW eventW "job-1" "bkt" "out" rfl rfl rfl
    (by decide) (by decide) (by decide) rfl
    { status := some "ok", summary_key := some "sums/0", chunk_index := some 0 }
    "sums/0" "alpha" (by decide) (by decide) (by decide) (by decide) (by decide)
  ⟨h.1, h.2.1⟩

/-- Witness for C4 at the concrete environment and event. -/
theorem C4_witness :
    (lambda_handler envW eventW).1.filter isPut =
      [Effect.s3Put "bkt" (promptKey "out" "job-1")
        (promptBefore
          ++ ("\n\n" ++ eqLine ++ String.intercalate "\n\n"
                (collectSummaries envW.s3read "bkt" eventW.chunk_results).2)
          ++ promptAfter) "text/plain"]
    ∧ eqLine.length = 80 :=
  have h := C4_pure_template_fill envW eventW "job-1" "bkt" "out" rfl rfl rfl
    (by decide) (by decide) (by decide) rfl
  ⟨h.1, h.2.2.1⟩

/-- Witness for C5 at the concrete environment and event, with the success
hypothesis of the final conjunct discharged. -/
theorem C5_witness :
    s3AfterAggregating (lambda_handler envW eventW).1 false = true
    ∧ aggAfterWrite (lambda_handler envW eventW).1 false = true
    ∧ (lambda_handler envW eventW).1.any isPut = true
    ∧ (lambda_handler envW eventW).1.any (isStatusTo "AGGREGATED") = true :=
  have h := C5_status_update_ordering envW eventW
  ⟨h.1, h.2.1, (h.2.2 (by decide)).1, (h.2.2 (by decide)).2⟩

/-- Witness for C6 at the concrete failing environment. -/
theorem C6_witness :
    (lambda_handler envF eventW).2.status = "FAILED"
    ∧ (lambda_handler envF eventW).2.error = some ("Result aggregation failed: " ++ "boom")
    ∧ Effect.statusUpdate (some "job-1") "FAILED"
        (some ("Result aggregation failed: " ++ "boom")) ∈ (lambda_handler envF eventW).1 :=
  have h := C6_exception_caught envF eventW "job-1" "bkt" "out" "boom" rfl rfl rfl
    (by decide) (by decide) (by decide) rfl
  ⟨h.1, h.2.1, h.2.2 rfl⟩

/-- Witness for C7 at the concrete table. -/
theorem C7_witness :
    List.lookup "other" (update_job_status true 5 tblW (some "job-1") "DONE" (some "m"))
      = List.lookup "other" tblW
    ∧ List.lookup "note" (getRecord (update_job_status true 5 tblW (some "job-1") "DONE"
        (some "m")) "job-1") = List.lookup "note" (getRecord tblW "job-1") :=
  have h := C7_update_job_status_frame tblW 5 "job-1" "DONE" (some "m")
  ⟨h.1 "other" (by decide), h.2.1 "note" (by decide) (by decide) (by decide)⟩

/-- Witness for C8 at the concrete event missing job_id. -/
theorem C8_witness :
    lambda_handler envW eventM =
      ([Effect.statusUpdate none "ERROR" (some "Missing required parameters")],
       { status := "error", error := some "Missing required parameters" })
    ∧ (lambda_handler envW eventM).1.filter isPut = []
    ∧ ((lambda_handler envW eventM).1.filter (isStatusTo "ERROR")).length = 1 :=
  C8_missing_parameters envW eventM (by decide)

/-- Witness for C9 at the concrete empty-chunk event. -/
theorem C9_witness :
    (lambda_handler envW eventE).2.chunks_processed = some eventE.chunk_results.length
    ∧ (lambda_handler envW eventE).2.message = some (aggregatedMsg eventE.chunk_results.length)
    ∧ (lambda_handler envW eventE).2.status = "success"
    ∧ (lambda_handler envW eventE).1.filter isPut =
        [Effect.s3Put "bkt" (promptKey "out" "job-1")
          (analysis_prompt (combined_summaries [])) "text/plain"] :=
  have h := C9_counts_all_chunks envW eventE "job-1" "bkt" "out" rfl rfl rfl
    (by decide) (by decide) (by decide) rfl
  ⟨h.1, h.2.1, (h.2.2.2.2 rfl).1, (h.2.2.2.2 rfl).2⟩

end ResultAggregator
